import Mathlib

/-!
Verification development for the Tokio Marine policy-PDF converter
(repository: ProjetoFalcao; sources: app.py, src/routes/upload.py,
src/services/pdf_converter.py, src/utils/file_handler.py).

The extraction pipeline is driven by Python `re` searches.  We model the
fragment of `re` that the program's patterns use: literal characters
(case-insensitive, as every call passes re.IGNORECASE), character classes,
greedy and lazy repetition of a character class, alternation, capturing
groups, lookahead, end-of-string anchors and the MULTILINE dollar.
The matcher enumerates candidate matches in exactly the backtracking
preference order of Python's engine (leftmost position first, then
alternative order, greedy = longest first, lazy = shortest first), so the
head of the enumeration is the match Python returns.
-/

/-- Python's `\s` class restricted to ASCII, which is all the program's texts
use: space, tab, newline, carriage return, vertical tab, form feed. -/
def pyWS (c : Char) : Bool :=
  c == ' ' || c == '\t' || c == '\n' || c == '\r' || c == '\x0b' || c == '\x0c'

/-- Lower-casing as Python's IGNORECASE folding does on the characters that
appear in the program's patterns: ASCII letters plus the accented letters
used in the Portuguese labels. -/
def toLowerPy (c : Char) : Char :=
  if 'A' ≤ c && c ≤ 'Z' then Char.ofNat (c.toNat + 32)
  else if c == 'Á' then 'á' else if c == 'Â' then 'â'
  else if c == 'Ã' then 'ã' else if c == 'À' then 'à'
  else if c == 'É' then 'é' else if c == 'Ê' then 'ê'
  else if c == 'Í' then 'í'
  else if c == 'Ó' then 'ó' else if c == 'Ô' then 'ô' else if c == 'Õ' then 'õ'
  else if c == 'Ú' then 'ú' else if c == 'Ç' then 'ç'
  else c

/-- Case-insensitive character comparison (re.IGNORECASE). -/
def charIEq (a b : Char) : Bool := toLowerPy a == toLowerPy b

/-- Abstract syntax of the regex fragment used by the program.  Repetition is
restricted to single-character classes, which covers every star/plus in the
source patterns. -/
inductive Re where
  | eps : Re
  | chr (p : Char → Bool) : Re
  | seq (a b : Re) : Re
  | alt (a b : Re) : Re
  | star (p : Char → Bool) (lazyStep : Bool) : Re
  | group (r : Re) : Re
  | look (r : Re) : Re
  | eos : Re
  | eol : Re

/-- All matches of `r` against a prefix of `cs`, as (consumed length,
captured groups) pairs, listed in Python's backtracking preference order.
Captures are listed in group-number order; none of the program's patterns
nests groups inside lookaheads or optional branches, so every group of a
successful match participates and captures a string. -/
def mtch : Re → List Char → List (Nat × List String)
  | .eps, _ => [(0, [])]
  | .chr _, [] => []
  | .chr p, c :: _ => if p c then [(1, [])] else []
  | .seq a b, cs =>
      (mtch a cs).flatMap fun pr =>
        (mtch b (cs.drop pr.1)).map fun qr => (pr.1 + qr.1, pr.2 ++ qr.2)
  | .alt a b, cs => mtch a cs ++ mtch b cs
  | .star p lazyStep, cs =>
      let k := (cs.takeWhile p).length
      let opts := List.range (k + 1)
      (if lazyStep then opts else opts.reverse).map fun n => (n, [])
  | .group r, cs => (mtch r cs).map fun pr => (pr.1, String.mk (cs.take pr.1) :: pr.2)
  | .look r, cs => match mtch r cs with | [] => [] | _ => [(0, [])]
  | .eos, cs => match cs with | [] => [(0, [])] | _ => []
  | .eol, cs => match cs with | [] => [(0, [])] | '\n' :: _ => [(0, [])] | _ => []

/-- re.search on a character list: the leftmost match, returned as
(start index, matched length, captured groups). -/
def searchAux : Re → List Char → Option (Nat × Nat × List String)
  | r, cs =>
    match mtch r cs with
    | pr :: _ => some (0, pr.1, pr.2)
    | [] =>
      match cs with
      | [] => none
      | _ :: t => (searchAux r t).map fun m => (m.1 + 1, m.2)

/-- re.search on a string. -/
def searchS (r : Re) (s : String) : Option (Nat × Nat × List String) :=
  searchAux r s.data

/-- re.findall worker: scan from absolute position `pos`, collecting the
captures of each non-overlapping match; an empty match advances by one, as
Python's scanner does.  `fuel` bounds the recursion; the caller supplies
more fuel than matches are possible. -/
def findallAux (r : Re) (cs : List Char) : Nat → Nat → List (List String)
  | 0, _ => []
  | fuel + 1, pos =>
    if pos > cs.length then []
    else
      match searchAux r (cs.drop pos) with
      | none => []
      | some (s, n, g) => g :: findallAux r cs fuel (pos + s + max n 1)

/-- re.findall on a string (list of capture tuples, one per match). -/
def findallS (r : Re) (s : String) : List (List String) :=
  findallAux r s.data (s.data.length + 2) 0

/-- Case-insensitive single literal character. -/
def ciChar (c : Char) : Re := Re.chr (charIEq c)

/-- Case-insensitive literal string. -/
def lit (s : String) : Re := s.data.foldr (fun c r => Re.seq (ciChar c) r) Re.eps

/-- Concatenation of a pattern list. -/
def cat (rs : List Re) : Re := rs.foldr Re.seq Re.eps

/-- Alternation of a pattern list (empty list never matches). -/
def alts (rs : List Re) : Re := rs.foldr Re.alt (Re.chr fun _ => false)

/-- Greedy `p*`. -/
def star0 (p : Char → Bool) : Re := Re.star p false

/-- Lazy `p*?`. -/
def star0L (p : Char → Bool) : Re := Re.star p true

/-- Greedy `p+`. -/
def plus1 (p : Char → Bool) : Re := Re.seq (Re.chr p) (Re.star p false)

/-- Lazy `p+?`. -/
def plus1L (p : Char → Bool) : Re := Re.seq (Re.chr p) (Re.star p true)

/-- Exactly `n` repetitions of class `p`. -/
def repN (p : Char → Bool) (n : Nat) : Re := cat (List.replicate n (Re.chr p))

/-- Greedy `p?` on a single character class. -/
def optC (p : Char → Bool) : Re := Re.alt (Re.chr p) Re.eps

/-- Capturing group. -/
def grp : Re → Re := Re.group

/-- Class `[:\s]` used by the label patterns. -/
def wsOrColon (c : Char) : Bool := c == ':' || pyWS c

/-- Class `.` without DOTALL: any character except newline. -/
def notNL (c : Char) : Bool := c != '\n'

/-- Class `[^\n\r]`. -/
def notNLCR (c : Char) : Bool := c != '\n' && c != '\r'

/-- Class `.` under DOTALL: any character. -/
def anyCh (_ : Char) : Bool := true

/-- Class `[0-9.,]` of the monetary patterns. -/
def numCh (c : Char) : Bool := c.isDigit || c == '.' || c == ','

/-- Class `[A-Z]` under IGNORECASE: either case. -/
def alphaCh (c : Char) : Bool := ('A' ≤ c && c ≤ 'Z') || ('a' ≤ c && c ≤ 'z')

/-- Class `[A-Z0-9]` under IGNORECASE. -/
def alnumCh (c : Char) : Bool := alphaCh c || c.isDigit

/-- Class `\d`. -/
def digitCh (c : Char) : Bool := c.isDigit

/-- Class `[^\s\n\r]` (not whitespace). -/
def notWS (c : Char) : Bool := !(pyWS c)

/-- Python str.strip(): drop ASCII whitespace from both ends. -/
def pyStrip (s : String) : String :=
  String.mk (((s.data.dropWhile pyWS).reverse.dropWhile pyWS).reverse)

/-- Collapse consecutive spaces to a single space (helper for collapseWS). -/
def dedupSpaces : List Char → List Char
  | [] => []
  | [c] => [c]
  | a :: b :: t =>
    if a == ' ' && b == ' ' then dedupSpaces (b :: t) else a :: dedupSpaces (b :: t)

/-- Python re.sub(r'\s+', ' ', s): every maximal whitespace run becomes one
space. -/
def collapseWS (s : String) : String :=
  String.mk (dedupSpaces (s.data.map fun c => if pyWS c then ' ' else c))

/-- The substring of `s` of length `len` starting at index `start`
(match.group(0) of a match reported by searchS). -/
def substrAt (s : String) (start len : Nat) : String :=
  String.mk ((s.data.drop start).take len)

/-- Python s.replace('.', ''): remove every period. -/
def replDot (s : String) : String := String.mk (s.data.filter fun c => c != '.')

/-- Python s.replace(',', '.'): turn every comma into a period. -/
def replComma (s : String) : String :=
  String.mk (s.data.map fun c => if c == ',' then '.' else c)

/-- Decimal digit run to a natural number. -/
def digitsToNat (l : List Char) : Nat :=
  l.foldl (fun a c => a * 10 + (c.toNat - 48)) 0

/-- Model of CPython float() on decimal literals: optional sign, digits with
at most one point, optional exponent; anything else fails.  Whitespace,
underscores, inf and nan are omitted: they cannot occur in the strings the
program feeds to float(), which are drawn from the class [0-9.,] with
periods removed and commas turned into periods. -/
def pyFloat? (s : String) : Option ℚ :=
  let cs := s.data
  let sgn : ℚ × List Char :=
    match cs with
    | '+' :: t => (1, t)
    | '-' :: t => (-1, t)
    | _ => (1, cs)
  let ip := sgn.2.takeWhile Char.isDigit
  let r1 := sgn.2.dropWhile Char.isDigit
  let fpr : List Char × List Char :=
    match r1 with
    | '.' :: t => (t.takeWhile Char.isDigit, t.dropWhile Char.isDigit)
    | _ => ([], r1)
  let fp := fpr.1
  if ip.length + fp.length = 0 then none
  else
    let mant : ℚ :=
      sgn.1 * ((digitsToNat (ip ++ fp) : ℚ) / ((10 : ℚ) ^ fp.length))
    match fpr.2 with
    | [] => some mant
    | e :: t =>
      if e == 'e' || e == 'E' then
        let es : Bool × List Char :=
          match t with
          | '+' :: u => (true, u)
          | '-' :: u => (false, u)
          | _ => (true, t)
        let ed := es.2.takeWhile Char.isDigit
        let rest := es.2.dropWhile Char.isDigit
        if ed.length = 0 || rest ≠ [] then none
        else some (if es.1 then mant * (10 : ℚ) ^ digitsToNat ed
                   else mant / (10 : ℚ) ^ digitsToNat ed)
      else none

/-- Value of an extracted field: a string, or a parsed monetary amount
(Python float modelled as a rational). -/
inductive FieldValue where
  | str (s : String)
  | num (q : ℚ)
deriving DecidableEq

namespace App

/-!
Model of app.py.  Streamlit calls (st.info, st.success, progress bars,
text areas) are pure logging with no effect on the extracted data and are
omitted.  All searches in this file run with re.IGNORECASE | re.MULTILINE,
and the section-splitting findall calls add re.DOTALL.
-/

/-- app.py extract_field (lines 165-178): try the patterns in order; on the
first match return group(1) if the pattern has a group, else group(0),
stripped and with whitespace runs collapsed; return "" when nothing
matches. -/
def extract_field (ps : List Re) (text : String) : String :=
  match ps with
  | [] => ""
  | p :: rest =>
    match searchS p text with
    | some m =>
      match m.2.2 with
      | v :: _ => collapseWS (pyStrip v)
      | [] => collapseWS (pyStrip (substrAt text m.1 m.2.1))
    | none => extract_field rest text

/-- app.py parse_vehicle_data.extract_money (lines 276-286): on the first
matching pattern take group(1), delete periods, turn commas into periods,
and try float(); on parse failure return that (already normalized) string.
Every monetary pattern in this file has a capture group, so the
group(1)-missing IndexError branch is unreachable; it is mapped to the
sentinel. -/
def extract_money (ps : List Re) (text : String) : FieldValue :=
  match ps with
  | [] => .str ""
  | p :: rest =>
    match searchS p text with
    | some m =>
      match m.2.2 with
      | v :: _ =>
        let w := replComma (replDot v)
        (match pyFloat? w with
         | some q => .num q
         | none => .str w)
      | [] => .str ""
    | none => extract_money rest text

/-- app.py parse_vehicle_data.extract_simple (lines 288-291): extract_field,
with "" kept as "". -/
def extract_simple (ps : List Re) (text : String) : FieldValue :=
  .str (extract_field ps text)

/-- Lookahead tail `(?=\s*WORD|$)` for the value-until-next-label patterns. -/
def nextW (s : String) : Re :=
  Re.look (Re.alt (cat [star0 pyWS, lit s]) Re.eol)

/-- Lookahead tail where the next label is followed by `[:\s]`. -/
def nextWC (s : String) : Re :=
  Re.look (Re.alt (cat [star0 pyWS, lit s, Re.chr wsOrColon]) Re.eol)

/-- Pattern `LABEL[:\s]*([^\n\r]+?)` followed by a lookahead tail. -/
def labelPat (label : String) (tail : Re) : Re :=
  cat [lit label, star0 wsOrColon, grp (plus1L notNLCR), tail]

/-- The manufacturer allow-list of extract_vehicle_sections. -/
def fabricantes : List String :=
  ["CHEVROLET", "FORD", "VOLKSWAGEN", "FIAT", "NISSAN", "TOYOTA", "BYD", "MITSUBISHI"]

/-- app.py parse_vehicle_data (lines 273-435): the fixed vehicle schema.
Keys appear in the source's insertion order; coverage and deductible
fields are appended by the two loops at lines 421 and 432. -/
def parse_vehicle_data (vehicle_content : String) (item_num : String) :
    List (String × FieldValue) :=
  [("Item", .str item_num),
   ("CEP de Pernoite", extract_simple
     [cat [lit "CEP de Pernoite do Veículo", star0 wsOrColon, grp (plus1 notWS)],
      grp (cat [repN digitCh 5, optC (fun c => c == '-'), repN digitCh 3])]
     vehicle_content),
   ("Fabricante", extract_simple
     [labelPat "Fabricante" (nextWC "Veículo"),
      grp (alts (fabricantes.map lit))]
     vehicle_content),
   ("Veículo", extract_simple
     [cat [lit "Veículo", star0 wsOrColon, grp (plus1L notNLCR),
           Re.look (Re.alt (cat [star0 pyWS, Re.alt (lit "Ano Modelo") (lit "4º Eixo")]) Re.eol)]]
     vehicle_content),
   ("Ano Modelo", extract_simple
     [cat [lit "Ano Modelo", star0 wsOrColon, grp (repN digitCh 4)]]
     vehicle_content),
   ("Chassi", extract_simple
     [cat [lit "Chassi", star0 wsOrColon, grp (repN alnumCh 17)],
      cat [lit "Chassi", star0 wsOrColon, grp (plus1 alnumCh)]]
     vehicle_content),
   ("Chassi Remarcado", extract_simple
     [labelPat "Chassi Remarcado" (nextWC "Placa")]
     vehicle_content),
   ("Placa", extract_simple
     [cat [lit "Placa", star0 wsOrColon, grp (plus1 alnumCh)]]
     vehicle_content),
   ("Combustível", extract_simple
     [labelPat "Combustível" (nextW "Lotação"),
      grp (alts [lit "Diesel", lit "Gasolina", lit "Flex", lit "Álcool", lit "Elétrico"])]
     vehicle_content),
   ("Lotação Veículo", extract_simple
     [cat [lit "Lotação Veículo", star0 wsOrColon, grp (plus1 digitCh)]]
     vehicle_content),
   ("Veículo 0km", extract_simple
     [labelPat "Veículo 0km" (nextW "Veículo Blindado")]
     vehicle_content),
   ("Veículo Blindado", extract_simple
     [labelPat "Veículo Blindado" (nextW "Veículo com Kit")]
     vehicle_content),
   ("Veículo com Kit Gás", extract_simple
     [labelPat "Veículo com Kit Gás" (nextW "Dispositivo")]
     vehicle_content),
   ("Dispositivo em Comodato", extract_simple
     [labelPat "Dispositivo em Comodato" (nextW "Tipo de")]
     vehicle_content),
   ("Tipo de Carroceria", extract_simple
     [labelPat "Tipo de Carroceria" (nextW "Isenção")]
     vehicle_content),
   ("Isenção Fiscal", extract_simple
     [labelPat "Isenção Fiscal" (nextW "Proprietário")]
     vehicle_content),
   ("Proprietário", extract_simple
     [labelPat "Proprietário" (nextW "Fipe")]
     vehicle_content),
   ("Fipe", extract_simple
     [labelPat "Fipe" (nextW "Tipo de Seguro")]
     vehicle_content),
   ("Tipo de Seguro", extract_simple
     [labelPat "Tipo de Seguro" (nextW "Nr Apólice")]
     vehicle_content),
   ("Nome da Seguradora Anterior", extract_simple
     [labelPat "Nome da Congenere" (nextW "Venc Apólice")]
     vehicle_content),
   ("Nr Apólice Congênere", extract_simple
     [labelPat "Nr Apólice Congenere" (nextW "Venc")]
     vehicle_content),
   ("Venc Apólice Cong.", extract_simple
     [labelPat "Venc Apólice Cong." (nextW "Classe")]
     vehicle_content),
   ("Classe de Bônus", extract_simple
     [cat [lit "Classe de Bônus", star0 wsOrColon, grp (plus1 digitCh)]]
     vehicle_content),
   ("Código de Identificação (CI)", extract_simple
     [labelPat "Código de Identificação (CI)" (nextW "Km de")]
     vehicle_content),
   ("Km de Reboque", extract_simple
     [labelPat "Km de Reboque" (nextW "CNPJ")]
     vehicle_content),
   ("CNPJ Fornecedor", extract_simple
     [labelPat "CNPJ" (nextW "Fornecedor")]
     vehicle_content),
   ("Fornecedor de Vidros", extract_simple
     [labelPat "Fornecedor de Vidros" (nextW "Coberturas")]
     vehicle_content),
   ("Prêmio Líquido Total", extract_money
     [cat [lit "Prêmio Líquido Total", star0 wsOrColon, grp (plus1 numCh)],
      cat [lit "Prêmio Líquido Total", star0L notNL,
           grp (Re.seq (Re.chr digitCh) (star0 numCh))]]
     vehicle_content)]
  ++
  [("Limite Colisão VMR", extract_money
     [cat [lit "Valor Referenciado (VMR)", star0 pyWS, grp (plus1 numCh)]]
     vehicle_content),
   ("Prêmio Colisão", extract_money
     [cat [lit "Colisão, Incêndio e Roubo", star0L notNL, grp (plus1 numCh),
           Re.alt (cat [plus1 pyWS, plus1 numCh]) Re.eps]]
     vehicle_content),
   ("Limite RCF Danos Materiais", extract_money
     [cat [lit "RCF-V - Danos Materiais", plus1 pyWS, grp (plus1 numCh)]]
     vehicle_content),
   ("Prêmio RCF Danos Materiais", extract_money
     [cat [lit "RCF-V - Danos Materiais", plus1 pyWS, plus1 numCh, plus1 pyWS,
           grp (plus1 numCh)]]
     vehicle_content),
   ("Limite APP Morte", extract_money
     [cat [lit "APP - Morte por Passageiro", plus1 pyWS, grp (plus1 numCh)]]
     vehicle_content),
   ("Prêmio APP Morte", extract_money
     [cat [lit "APP - Morte por Passageiro", plus1 pyWS, plus1 numCh, plus1 pyWS,
           grp (plus1 numCh)]]
     vehicle_content)]
  ++
  [("Franquia Parabrisa", extract_money
     [cat [lit "Parabrisa", star0 wsOrColon, lit "R$", star0 pyWS, grp (plus1 numCh)]]
     vehicle_content),
   ("Franquia Lateral", extract_money
     [cat [lit "Lateral", star0 wsOrColon, lit "R$", star0 pyWS, grp (plus1 numCh)]]
     vehicle_content),
   ("Franquia Farol", extract_money
     [cat [lit "Farol", star0 (fun c => c != ':'), star0 wsOrColon, lit "R$",
           star0 pyWS, grp (plus1 numCh)]]
     vehicle_content),
   ("Franquia Retrovisor", extract_money
     [cat [lit "Retrovisor", star0 (fun c => c != ':'), star0 wsOrColon, lit "R$",
           star0 pyWS, grp (plus1 numCh)]]
     vehicle_content)]

/-- The fixed key set of every VehicleRecord, in source order. -/
def vehicleFieldNames : List String :=
  ["Item", "CEP de Pernoite", "Fabricante", "Veículo", "Ano Modelo", "Chassi",
   "Chassi Remarcado", "Placa", "Combustível", "Lotação Veículo", "Veículo 0km",
   "Veículo Blindado", "Veículo com Kit Gás", "Dispositivo em Comodato",
   "Tipo de Carroceria", "Isenção Fiscal", "Proprietário", "Fipe",
   "Tipo de Seguro", "Nome da Seguradora Anterior", "Nr Apólice Congênere",
   "Venc Apólice Cong.", "Classe de Bônus", "Código de Identificação (CI)",
   "Km de Reboque", "CNPJ Fornecedor", "Fornecedor de Vidros",
   "Prêmio Líquido Total", "Limite Colisão VMR", "Prêmio Colisão",
   "Limite RCF Danos Materiais", "Prêmio RCF Danos Materiais",
   "Limite APP Morte", "Prêmio APP Morte", "Franquia Parabrisa",
   "Franquia Lateral", "Franquia Farol", "Franquia Retrovisor"]

/-- app.py parse_header_data (lines 437-475): the fixed header schema. -/
def parse_header_data (text : String) : List (String × FieldValue) :=
  [("Razão Social", .str (extract_field
     [labelPat "Razão Social" (nextW "CNPJ"), grp (lit "ROD TRANSPORTES LTDA")] text)),
   ("CNPJ", .str (extract_field
     [labelPat "CNPJ" (nextW "Atividade"),
      grp (cat [repN digitCh 3, lit ".", repN digitCh 3, lit ".", repN digitCh 3,
                lit "/", repN digitCh 4, lit "-", repN digitCh 2])] text)),
   ("Atividade Principal", .str (extract_field
     [labelPat "Atividade Principal" (nextW "Endereço")] text)),
   ("Endereço", .str (extract_field
     [labelPat "Endereço" (nextW "Bairro")] text)),
   ("Apólice", .str (extract_field
     [labelPat "Apólice" (nextW "Negócio")] text)),
   ("Vigência do Seguro", .str (extract_field
     [labelPat "Vigência do Seguro" (nextW "Data")] text)),
   ("Prêmio Total Geral", .str (extract_field
     [cat [lit "Prêmio Total", star0 wsOrColon, lit "R$", star0 pyWS,
           grp (plus1L notNLCR), nextW "Cobrança"]] text)),
   ("Quantidade de Itens", .str (extract_field
     [labelPat "Quantidade de Itens" (nextW "Sucursal")] text))]

/-- A vehicle span: item index and the text attributed to that vehicle. -/
structure Vehicle where
  item : String
  content : String
deriving DecidableEq

/-- Python enumerate: map with a running index. -/
def enumMap (f : Nat → α → β) : Nat → List α → List β
  | _, [] => []
  | k, a :: t => f k a :: enumMap f (k + 1) t

/-- Strategy-1 pattern 1 (line 189): Descrição do Item - (number) - Produto
Auto Frota, content up to the next such header, Assistência 24 Horas, or
end; DOTALL is on, so the content class is any character. -/
def descr1 : Re :=
  cat [lit "Descrição do Item", star0 pyWS, ciChar '-', star0 pyWS,
       grp (plus1 digitCh), star0 pyWS, ciChar '-', star0 pyWS,
       lit "Produto Auto Frota", grp (star0L anyCh),
       Re.look (alts
         [cat [lit "Descrição do Item", star0 pyWS, ciChar '-', star0 pyWS,
               plus1 digitCh, star0 pyWS, ciChar '-', star0 pyWS,
               lit "Produto Auto Frota"],
          lit "Assistência 24 Horas", Re.eos])]

/-- Strategy-1 pattern 2 (line 190): the degenerate header without an item
number; single capture group. -/
def descr2 : Re :=
  cat [lit "Descrição do Item", star0 pyWS, ciChar '-', star0 pyWS, ciChar '-',
       star0 pyWS, lit "Produto Auto Frota", grp (star0L anyCh),
       Re.look (alts
         [cat [lit "Descrição do Item", star0 pyWS, ciChar '-', star0 pyWS,
               star0 (fun c => digitCh c || pyWS c), ciChar '-', star0 pyWS,
               lit "Produto Auto Frota"],
          lit "Assistência 24 Horas", Re.eos])]

/-- Strategy-1 pattern 3 (line 191): like pattern 1 but with the bare word
Item instead of Descrição do Item. -/
def descr3 : Re :=
  cat [lit "Item", star0 pyWS, ciChar '-', star0 pyWS, grp (plus1 digitCh),
       star0 pyWS, ciChar '-', star0 pyWS, lit "Produto Auto Frota",
       grp (star0L anyCh),
       Re.look (alts
         [cat [lit "Item", star0 pyWS, ciChar '-', star0 pyWS, plus1 digitCh,
               star0 pyWS, ciChar '-', star0 pyWS, lit "Produto Auto Frota"],
          lit "Assistência 24 Horas", Re.eos])]

/-- Strategy-2 pattern (line 223): a garaging postal-code field and the
content up to the next one or end of text. -/
def cepPat : Re :=
  cat [lit "CEP de Pernoite do Veículo", star0 wsOrColon,
       grp (cat [repN digitCh 5, optC (fun c => c == '-'), repN digitCh 3]),
       grp (star0L anyCh),
       Re.look (Re.alt (lit "CEP de Pernoite do Veículo") Re.eos)]

/-- Strategy-3 pattern (line 238): manufacturer name from the allow-list and
the content up to the next manufacturer or end. -/
def fabPat : Re :=
  cat [lit "Fabricante", star0 wsOrColon, grp (alts (fabricantes.map lit)),
       grp (star0L anyCh),
       Re.look (Re.alt
         (cat [lit "Fabricante", star0 wsOrColon, alts (fabricantes.map lit)])
         Re.eos)]

/-- Strategy-4 pattern (line 253): a Brazilian license plate (either format)
and the content up to the next plate or end. -/
def placaPat : Re :=
  cat [lit "Placa", star0 wsOrColon,
       grp (Re.alt (cat [repN alphaCh 3, repN digitCh 4])
                   (cat [repN alphaCh 3, Re.chr digitCh, Re.chr alphaCh,
                         repN digitCh 2])),
       grp (star0L anyCh),
       Re.look (Re.alt
         (cat [lit "Placa", star0 wsOrColon, repN alphaCh 3,
               Re.chr (fun c => digitCh c || alphaCh c)])
         Re.eos)]

/-- Loop body of strategy 1 (lines 199-217) for the two-group patterns: a
section is the tuple (item number, content); the item number group is
nonempty digits, so the first branch applies, but the source's other
branches are kept. -/
def secTupToVehicle (j : Nat) (caps : List String) : Vehicle :=
  let a := caps.headD ""
  let b := (caps.drop 1).headD ""
  if a ≠ "" then ⟨pyStrip a, pyStrip b⟩
  else ⟨toString (j + 1), pyStrip (if b ≠ "" then b else a)⟩

/-- Loop body of strategy 1 for the one-group pattern 2: Python then
iterates strings, and `len(section) == 2 and section[0]` unpacks a
two-character content into its two characters (a faithful rendering of the
source's tuple-minded indexing of a string). -/
def secStrToVehicle (j : Nat) (caps : List String) : Vehicle :=
  let s := caps.headD ""
  if s.data.length = 2 then
    ⟨pyStrip (String.mk (s.data.take 1)), pyStrip (String.mk (s.data.drop 1))⟩
  else ⟨toString (j + 1), pyStrip s⟩

/-- Strategy 1 of extract_vehicle_sections (lines 187-218): try the three
Descrição-do-Item patterns in order, keep the first with any matches. -/
def strategy1 (text : String) : List Vehicle :=
  let s1 := findallS descr1 text
  if s1 ≠ [] then enumMap secTupToVehicle 0 s1
  else
    let s2 := findallS descr2 text
    if s2 ≠ [] then enumMap secStrToVehicle 0 s2
    else
      let s3 := findallS descr3 text
      if s3 ≠ [] then enumMap secTupToVehicle 0 s3
      else []

/-- Strategy 2 (lines 220-232): one vehicle per garaging-postal-code match,
item indices assigned sequentially from 1. -/
def cepVehicle (i : Nat) (caps : List String) : Vehicle :=
  ⟨toString (i + 1),
   pyStrip ("CEP de Pernoite do Veículo: " ++ caps.headD "" ++ " " ++
            (caps.drop 1).headD "")⟩

/-- Strategy-2 result list. -/
def strategy2 (text : String) : List Vehicle :=
  enumMap cepVehicle 0 (findallS cepPat text)

/-- Strategy 3 (lines 234-248): one vehicle per manufacturer match. -/
def fabVehicle (i : Nat) (caps : List String) : Vehicle :=
  ⟨toString (i + 1),
   pyStrip ("Fabricante: " ++ caps.headD "" ++ " " ++ (caps.drop 1).headD "")⟩

/-- Strategy-3 result list. -/
def strategy3 (text : String) : List Vehicle :=
  enumMap fabVehicle 0 (findallS fabPat text)

/-- Strategy 4 (lines 250-263): one vehicle per license-plate match. -/
def placaVehicle (i : Nat) (caps : List String) : Vehicle :=
  ⟨toString (i + 1),
   pyStrip ("Placa: " ++ caps.headD "" ++ " " ++ (caps.drop 1).headD "")⟩

/-- Strategy-4 result list. -/
def strategy4 (text : String) : List Vehicle :=
  enumMap placaVehicle 0 (findallS placaPat text)

/-- app.py extract_vehicle_sections (lines 180-271): the fallback ladder;
the first strategy with a nonempty result wins, otherwise the empty list. -/
def extract_vehicle_sections (text : String) : List Vehicle :=
  let v1 := strategy1 text
  if v1 ≠ [] then v1
  else
    let v2 := strategy2 text
    if v2 ≠ [] then v2
    else
      let v3 := strategy3 text
      if v3 ≠ [] then v3
      else strategy4 text

/-- The per-vehicle parsing loop of main (app.py lines 569-580): one record
per span, in span order. -/
def vehicleRecords (text : String) : List (List (String × FieldValue)) :=
  (extract_vehicle_sections text).map fun v => parse_vehicle_data v.content v.item

/-- A workbook sheet: its name and its rows. -/
structure Sheet where
  name : String
  rows : List (List (String × FieldValue))
deriving DecidableEq

/-- Column set of the Resumo Veículos sheet (lines 492-495). -/
def resumo_columns : List String :=
  ["Item", "Fabricante", "Veículo", "Ano Modelo", "Placa", "Chassi",
   "Combustível", "Prêmio Líquido Total", "Classe de Bônus"]

/-- Python dict.get(k, default) on an association-list row. -/
def lookupD (row : List (String × FieldValue)) (k : String) (d : FieldValue) :
    FieldValue :=
  match row.lookup k with
  | some v => v
  | none => d

/-- app.py create_excel_file (lines 477-506): the header sheet is always
written; the vehicle and summary sheets are written only when the vehicle
list is nonempty (the `if all_vehicles_data:` guard at line 487). -/
def create_excel_file (dados_header : List (String × FieldValue))
    (all_vehicles_data : List (List (String × FieldValue))) : List Sheet :=
  [⟨"Dados Gerais", [dados_header]⟩] ++
  (if all_vehicles_data ≠ [] then
    [⟨"Todos os Veículos", all_vehicles_data⟩,
     ⟨"Resumo Veículos",
      all_vehicles_data.map fun v =>
        resumo_columns.map fun c => (c, lookupD v c (.str ""))⟩]
   else [])

/-- Environment of one extract_text_from_pdf call: the outcomes of the
external collaborators (upload stream, PyPDF2, OCR backends), which the
model treats as oracles.  `writeOk = false` means reading the upload
stream or writing the temp file raised after the temp file was created. -/
structure PdfEnv where
  writeOk : Bool
  pypdf2Text : String
  ocrAvailable : Bool
  tesseractAvailable : Bool
  tessText : String
  easyReader : Bool
  easyText : Option String
deriving DecidableEq

/-- app.py extract_text_from_pdf (lines 50-163): returns the extracted text
and whether the temporary on-disk copy was removed.  The os.unlink at line
158 sits at the end of the outer try, not in a finally: every failure that
the inner handlers catch still reaches it, but an exception that escapes to
the outer handler (line 161) returns "" with the temp file still on disk. -/
def extract_text_from_pdf (env : PdfEnv) : String × Bool :=
  if env.writeOk = false then ("", false)
  else
    let t0 := env.pypdf2Text
    let t1 :=
      if pyStrip t0 ≠ "" ∨ env.ocrAvailable = false then t0
      else
        let ta := if env.tesseractAvailable then env.tessText else t0
        if pyStrip ta = "" ∧ env.tesseractAvailable = false then
          (if env.easyReader then env.easyText.getD ta else ta)
        else ta
    (t1, true)

end App

namespace PdfConverter

/-!
Model of src/services/pdf_converter.py.  Searches here run with
re.IGNORECASE only, so `.` matches anything but a newline and there is no
MULTILINE dollar (no pattern in this file uses an anchor).
-/

/-- pdf_converter.py extract_field (lines 37-45): first matching pattern's
group(1), stripped; "" when nothing matches.  Every pattern passed in this
file has a capture group, so group(1) always exists on a match. -/
def extract_field (ps : List Re) (text : String) : String :=
  match ps with
  | [] => ""
  | p :: rest =>
    match searchS p text with
    | some m => pyStrip (m.2.2.headD "")
    | none => extract_field rest text

/-- Shorthand for the recurring pattern shape `LABEL:\s*(.*)`. -/
def linePat (label : String) : Re :=
  cat [lit label, lit ":", star0 pyWS, grp (star0 notNL)]

/-- Model of a pandas DataFrame: column names and rows. -/
structure DataFrame where
  columns : List String
  rows : List (List (String × String))
deriving DecidableEq

/-- pdf_converter.py parse_tokio_text (lines 48-96): header fields extracted
from the whole input, one fixed vehicle record (no segmentation), TIPO DE
SEGURO hard-coded, and a single-row DataFrame built from the record. -/
def parse_tokio_text (text : String) : List (String × String) × DataFrame :=
  let dados_header : List (String × String) :=
    [("NOME DO CLIENTE", extract_field
       [cat [lit "Proprietário", star0 wsOrColon, grp (star0 notNL)]] text),
     ("CNPJ", extract_field
       [cat [lit "CNPJ", star0 wsOrColon, grp (star0 notNL)]] text),
     ("APÓLICE", extract_field
       [cat [lit "Nr Apólice", star0L notNL, grp (plus1 digitCh)]] text),
     ("VIGÊNCIA", extract_field
       [cat [lit "Venc Apólice", star0L notNL, lit ":", star0 pyWS,
             grp (plus1 (fun c => c.isDigit || c == '/'))]] text)]
  let dados_veiculo : List (String × String) :=
    [("DESCRIÇÃO DO ITEM", extract_field
       [cat [lit "Descrição do Item - ", grp (star0 notNL)]] text),
     ("CEP DE PERNOITE DO VEÍCULO", extract_field [linePat "CEP de Pernoite do Veículo"] text),
     ("TIPO DE UTILIZAÇÃO", extract_field [linePat "Tipo de utilização"] text),
     ("VEÍCULO", extract_field [linePat "Veículo"] text),
     ("ANO MODELO", extract_field
       [cat [lit "Ano Modelo", lit ":", star0 pyWS, grp (repN digitCh 4)]] text),
     ("CHASSI", extract_field [linePat "Chassi"] text),
     ("PLACA", extract_field [linePat "Placa"] text),
     ("COMBUSTÍVEL", extract_field [linePat "Combustível"] text),
     ("LOTAÇÃO VEÍCULO", extract_field [linePat "Lotação Veículo"] text),
     ("VEÍCULO 0KM", extract_field [linePat "Veículo 0km"] text),
     ("VEÍCULO BLINDADO", extract_field [linePat "Veículo Blindado"] text),
     ("VEÍCULO COM KIT GÁS", extract_field [linePat "Veículo com Kit Gás"] text),
     ("TIPO DE CARROCERIA", extract_field [linePat "Tipo de Carroceria"] text),
     ("ISENÇÃO FISCAL", extract_field [linePat "Isenção Fiscal"] text),
     ("PROPRIETÁRIO", extract_field [linePat "Proprietário"] text),
     ("FIPE", extract_field [linePat "Fipe"] text),
     ("TIPO DE SEGURO", "Renovação Tokio sem sinistro"),
     ("NR APÓLICE CONGENERE", extract_field [linePat "Nr Apólice Congenere"] text),
     ("NOME DA CONGENERE", extract_field [linePat "Nome da Congenere"] text),
     ("VENC APÓLICE CONGENERE", extract_field
       [cat [lit "Venc Apólice Cong", Re.chr notNL, lit ": ", grp (star0 notNL)]] text),
     ("CLASSE DE BÔNUS", extract_field [linePat "Classe de Bônus"] text),
     ("CÓDIGO DE IDENTIFICAÇÃO (CI)", extract_field
       [linePat "Código de Identificação (CI)"] text),
     ("KM DE REBOQUE", extract_field [linePat "Km de Reboque"] text),
     ("KM (ADICIONAL)", extract_field [linePat "km(Adicional)"] text)]
  (dados_header, ⟨dados_veiculo.map Prod.fst, [dados_veiculo]⟩)

/-- pdf_converter.py save_dataframe_to_excel (lines 102-109): writes the
header as one sheet and the DataFrame rows as another to output.xlsx and
returns that path; modelled as the path plus the written workbook. -/
def save_dataframe_to_excel (dados_header : List (String × String))
    (df : DataFrame) : String × List (String × List (List (String × String))) :=
  ("output.xlsx", [("Dados Gerais", [dados_header]), ("Veículos", df.rows)])

end PdfConverter

namespace FileHandler

/-- src/utils/file_handler.py save_file (lines 5-19): store the uploaded
bytes under uploads/<filename> and return that path; the filesystem is an
explicit association list.  The saved file is never removed afterwards by
any caller. -/
def save_file (filename : String) (contents : List Nat)
    (fs : List (String × List Nat)) : String × List (String × List Nat) :=
  let file_path := "uploads/" ++ filename
  (file_path, (file_path, contents) :: fs)

end FileHandler

namespace Upload

/-- The JSON response of the upload route plus the workbook written to
output.xlsx (the artifact holding the extracted field values). -/
structure UploadResponse where
  status : Nat
  body : List (String × String)
  artifact : Option (List (String × List (List (String × String))))
deriving DecidableEq

/-- src/routes/upload.py upload_file (lines 7-27): reject a missing file or
empty filename with 400; otherwise save the upload and — passing the saved
PATH STRING, not the PDF's text — run parse_tokio_text on it, write the
workbook, and answer 200.  Returns the response and the final filesystem. -/
def upload_file (req : Option (String × List Nat))
    (fs : List (String × List Nat)) : UploadResponse × List (String × List Nat) :=
  match req with
  | none => (⟨400, [("error", "Nenhum arquivo enviado")], none⟩, fs)
  | some (filename, contents) =>
    if filename = "" then (⟨400, [("error", "Nome do arquivo vazio")], none⟩, fs)
    else
      let sv := FileHandler.save_file filename contents fs
      let hd := PdfConverter.parse_tokio_text sv.1
      let ex := PdfConverter.save_dataframe_to_excel hd.1 hd.2
      (⟨200, [("message", "Arquivo processado com sucesso"), ("excel_path", ex.1)],
        some ex.2⟩, sv.2)

end Upload

/-!
Concrete instances used by counterexamples and witnesses.
-/

/-- First monetary candidate of the Prêmio Líquido Total field
(app.py line 406). -/
def premioLiquidoPat : Re :=
  cat [lit "Prêmio Líquido Total", star0 wsOrColon, grp (plus1 numCh)]

/-- A monetary field whose captured value parses after normalization. -/
def moneyOkText : String := "Prêmio Líquido Total: 1.234,56"

/-- A monetary field whose captured value still fails float() after
normalization, and is changed by the normalization. -/
def moneyBadText : String := "Prêmio Líquido Total: 1,2,3"

/-- Specific CNPJ candidate of parse_header_data (app.py line 446). -/
def cnpjSpecPat : Re := App.labelPat "CNPJ" (App.nextW "Atividade")

/-- Generic CNPJ shape fallback of parse_header_data (app.py line 447). -/
def cnpjGenPat : Re :=
  grp (cat [repN digitCh 3, lit ".", repN digitCh 3, lit ".", repN digitCh 3,
            lit "/", repN digitCh 4, lit "-", repN digitCh 2])

/-- Text matched by both the specific and the generic CNPJ candidate. -/
def cnpjDemoText : String := "CNPJ: 123.456.789/0001-99 Atividade Principal: X"

/-- Two garaging-postal-code fields, no item headers at all. -/
def cepDemoText : String :=
  "CEP de Pernoite do Veículo: 12345-678 aa CEP de Pernoite do Veículo: 87654-321 bb"

/-- A bare Item header (no Descrição do Item marker) followed by two
garaging-postal-code fields. -/
def itemHeaderCepText : String :=
  "Item - 1 - Produto Auto Frota CEP de Pernoite do Veículo: 11111-111 xx CEP de Pernoite do Veículo: 22222-222 yy"

/-- A text containing none of the field labels. -/
def noLabelText : String := "nenhum rotulo conhecido aparece neste texto"

/-!
Theorems.
-/

set_option maxRecDepth 20000

/-- Python enumerate preserves length. -/
theorem enumMap_length (f : Nat → α → β) (k : Nat) (l : List α) :
    (App.enumMap f k l).length = l.length := by
  induction l generalizing k with
  | nil => rfl
  | cons a t ih => simp [App.enumMap, ih]

/-- Element access through enumMap. -/
theorem enumMap_getElem? (f : Nat → α → β) (k : Nat) (l : List α) (i : Nat) :
    (App.enumMap f k l)[i]? = l[i]?.map (f (k + i)) := by
  induction l generalizing k i with
  | nil => simp [App.enumMap]
  | cons a t ih =>
    cases i with
    | zero => simp [App.enumMap]
    | succ j =>
      have e : k + 1 + j = k + (j + 1) := by omega
      simp only [App.enumMap, List.getElem?_cons_succ]
      rw [ih (k + 1) j, e]

/-- No-match induction for app.py's extract_field. -/
theorem app_extract_field_sentinel (text : String) :
    ∀ (l : List Re), (∀ p ∈ l, searchS p text = none) →
      App.extract_field l text = "" := by
  intro l
  induction l with
  | nil => intro _; rfl
  | cons p t ih =>
    intro hall
    have hp := hall p (List.mem_cons_self p t)
    have ht := fun q hq => hall q (List.mem_cons_of_mem p hq)
    simp [App.extract_field, hp, ih ht]

/-- No-match induction for pdf_converter.py's extract_field. -/
theorem pc_extract_field_sentinel (text : String) :
    ∀ (l : List Re), (∀ p ∈ l, searchS p text = none) →
      PdfConverter.extract_field l text = "" := by
  intro l
  induction l with
  | nil => intro _; rfl
  | cons p t ih =>
    intro hall
    have hp := hall p (List.mem_cons_self p t)
    have ht := fun q hq => hall q (List.mem_cons_of_mem p hq)
    simp [PdfConverter.extract_field, hp, ih ht]

/-- String append is left-cancellative. -/
theorem string_append_left_cancel {a b c : String} (h : a ++ b = a ++ c) : b = c := by
  obtain ⟨la⟩ := a
  obtain ⟨lb⟩ := b
  obtain ⟨lc⟩ := c
  have h2 : la ++ lb = la ++ lc := congrArg String.data h
  exact congrArg String.mk (List.append_cancel_left h2)

/-- C1 (amended): when a monetary candidate matches, the capture is
normalized (periods deleted, commas turned into periods) and parsed; a
successful parse yields that number, a failed parse yields the normalized
string — not the raw capture — and no exception propagates. -/
theorem extract_money_normalize_then_parse (p : Re) (rest : List Re) (text : String)
    (s n : Nat) (v : String) (g : List String)
    (h : searchS p text = some (s, n, v :: g)) :
    (∀ q : ℚ, pyFloat? (replComma (replDot v)) = some q →
        App.extract_money (p :: rest) text = FieldValue.num q) ∧
    (pyFloat? (replComma (replDot v)) = none →
        App.extract_money (p :: rest) text = FieldValue.str (replComma (replDot v))) := by
  constructor
  · intro q hq
    simp [App.extract_money, h, hq]
  · intro hq
    simp [App.extract_money, h, hq]

/-- C1 witness: the capture 1.234,56 parses to the rational 1234.56. -/
theorem extract_money_normalize_witness :
    App.extract_money [premioLiquidoPat] moneyOkText = FieldValue.num (1234.56 : ℚ) := by
  have h := (extract_money_normalize_then_parse premioLiquidoPat [] moneyOkText 0 30
    "1.234,56" [] rfl).1
  apply h
  have e : pyFloat? (replComma (replDot "1.234,56"))
      = some ((1 : ℚ) * ((123456 : ℚ) / (10 : ℚ) ^ 2)) := rfl
  rw [e]
  exact congrArg some (by norm_num)

/-- C1 counterexample: the capture 1,2,3 fails float(); the program then
returns the normalized string 1.2.3, not the raw captured string 1,2,3, so
the raw capture is not preserved unchanged. -/
theorem extract_money_failed_parse_counterexample :
    (searchS premioLiquidoPat moneyBadText).map (fun m => m.2.2) = some ["1,2,3"] ∧
    App.extract_money [premioLiquidoPat] moneyBadText = FieldValue.str "1.2.3" ∧
    ("1.2.3" == "1,2,3") = false := by
  exact ⟨rfl, rfl, rfl⟩

/-- C2: when no candidate of a field matches the text, both field
extractors return the empty-string sentinel (and, being total functions of
their inputs, raise nothing). -/
theorem extract_field_no_match_returns_sentinel (ps qs : List Re) (text : String)
    (h : ∀ p ∈ ps, searchS p text = none)
    (h2 : ∀ p ∈ qs, searchS p text = none) :
    App.extract_field ps text = "" ∧ PdfConverter.extract_field qs text = "" :=
  ⟨app_extract_field_sentinel text ps h, pc_extract_field_sentinel text qs h2⟩

/-- C2 witness: a label-free text yields the sentinel from both extractors. -/
theorem extract_field_no_match_witness :
    App.extract_field [cnpjSpecPat, cnpjGenPat] noLabelText = "" ∧
    PdfConverter.extract_field [PdfConverter.linePat "Placa"] noLabelText = "" :=
  extract_field_no_match_returns_sentinel [cnpjSpecPat, cnpjGenPat]
    [PdfConverter.linePat "Placa"] noLabelText (by decide) (by decide)

/-- C3 (amended): when none of the three primary item-header patterns
matches, the segmenter falls back to the postal-code heuristic: one span
per garaging-postal-code match, item indices 1, 2, ... in order. -/
theorem vehicle_sections_cep_fallback (text : String) (n : Nat)
    (h1 : findallS App.descr1 text = [])
    (h2 : findallS App.descr2 text = [])
    (h3 : findallS App.descr3 text = [])
    (hn : (findallS App.cepPat text).length = n)
    (hpos : 0 < n) :
    (App.extract_vehicle_sections text).length = n ∧
    ∀ i, i < n →
      ((App.extract_vehicle_sections text)[i]?).map App.Vehicle.item
        = some (toString (i + 1)) := by
  have hs1 : App.strategy1 text = [] := by
    simp [App.strategy1, h1, h2, h3]
  have hs2len : (App.strategy2 text).length = n := by
    unfold App.strategy2
    rw [enumMap_length, hn]
  have hs2ne : App.strategy2 text ≠ [] := by
    intro h0
    rw [h0] at hs2len
    simp at hs2len
    omega
  have hev : App.extract_vehicle_sections text = App.strategy2 text := by
    simp [App.extract_vehicle_sections, hs1, hs2ne]
  constructor
  · rw [hev]; exact hs2len
  · intro i hi
    rw [hev]
    unfold App.strategy2
    rw [enumMap_getElem?]
    have hlen : i < (findallS App.cepPat text).length := by rw [hn]; exact hi
    rw [List.getElem?_eq_getElem hlen]
    simp [App.cepVehicle]

/-- C3 witness: a text with two postal-code fields and no item header at
all yields two spans with items 1 and 2. -/
theorem vehicle_sections_cep_fallback_witness :
    (App.extract_vehicle_sections cepDemoText).length = 2 ∧
    ((App.extract_vehicle_sections cepDemoText)[0]?).map App.Vehicle.item = some "1" := by
  have h := vehicle_sections_cep_fallback cepDemoText 2 rfl rfl rfl rfl (by norm_num)
  exact ⟨h.1, (h.2 0 (by norm_num)).trans (by decide)⟩

/-- C3 counterexample: a text with NO Descrição do Item marker but a bare
Item header and two postal-code fields is segmented by the primary
strategy's third pattern into one span, not by the postal-code heuristic
into two. -/
theorem vehicle_sections_item_header_counterexample :
    (searchS (lit "Descrição do Item") itemHeaderCepText).isNone = true ∧
    (findallS App.cepPat itemHeaderCepText).length = 2 ∧
    (App.extract_vehicle_sections itemHeaderCepText).length = 1 := by
  exact ⟨rfl, rfl, rfl⟩

/-- C4 (amended): empty input yields no vehicles and an all-sentinel
header, and the exporter applied to the empty vehicle list produces a
workbook with the header sheet only — no vehicle sheet. -/
theorem empty_text_header_only_workbook :
    App.extract_vehicle_sections "" = [] ∧
    App.parse_header_data ""
      = [("Razão Social", .str ""), ("CNPJ", .str ""),
         ("Atividade Principal", .str ""), ("Endereço", .str ""),
         ("Apólice", .str ""), ("Vigência do Seguro", .str ""),
         ("Prêmio Total Geral", .str ""), ("Quantidade de Itens", .str "")] ∧
    App.create_excel_file (App.parse_header_data "") (App.vehicleRecords "")
      = [⟨"Dados Gerais", [App.parse_header_data ""]⟩] := by
  exact ⟨rfl, rfl, rfl⟩

/-- C4 counterexample: for empty input the produced workbook has no vehicle
sheet at all (only Dados Gerais), contradicting the claimed valid empty
vehicle sheet. -/
theorem empty_text_no_vehicle_sheet_counterexample :
    (App.create_excel_file (App.parse_header_data "") (App.vehicleRecords "")).map
        App.Sheet.name = ["Dados Gerais"] ∧
    (((App.create_excel_file (App.parse_header_data "") (App.vehicleRecords "")).map
        App.Sheet.name).contains "Todos os Veículos") = false := by
  exact ⟨rfl, rfl⟩

/-- C5: one VehicleRecord per VehicleSpan, in span order, and every record
carries the same fixed key list (missing values are in-band sentinels). -/
theorem vehicle_record_count_and_fixed_keys (text : String) (c i : String) :
    (App.vehicleRecords text).length = (App.extract_vehicle_sections text).length ∧
    App.vehicleRecords text
      = (App.extract_vehicle_sections text).map
          (fun v => App.parse_vehicle_data v.content v.item) ∧
    (App.parse_vehicle_data c i).map Prod.fst = App.vehicleFieldNames :=
  ⟨List.length_map _ _, rfl, rfl⟩

/-- C6: candidates are tried in order and the first match short-circuits:
the result is the first matching candidate's group(1) (or whole match),
stripped and whitespace-collapsed, and later candidates are not consulted. -/
theorem extract_field_first_match_wins (p : Re) (rest : List Re) (text : String)
    (s n : Nat) (caps : List String)
    (h : searchS p text = some (s, n, caps)) :
    App.extract_field (p :: rest) text
      = collapseWS (pyStrip (caps.headD (substrAt text s n))) ∧
    App.extract_field (p :: rest) text = App.extract_field [p] text := by
  have e : ∀ (l : List Re), App.extract_field (p :: l) text
      = collapseWS (pyStrip (caps.headD (substrAt text s n))) := by
    intro l
    cases caps with
    | nil => simp [App.extract_field, h]
    | cons v t => simp [App.extract_field, h]
  exact ⟨e rest, (e rest).trans (e []).symm⟩

/-- C6 witness: a text matching both the specific CNPJ candidate and the
generic fallback returns the specific candidate's capture. -/
theorem extract_field_first_match_witness :
    App.extract_field [cnpjSpecPat, cnpjGenPat] cnpjDemoText = "123.456.789/0001-99" ∧
    (searchS cnpjGenPat cnpjDemoText).isSome = true := by
  constructor
  · have h := (extract_field_first_match_wins cnpjSpecPat [cnpjGenPat] cnpjDemoText 0 25
      ["123.456.789/0001-99"] rfl).1
    exact h.trans (by rfl)
  · rfl

/-- C7 (amended): the temporary PDF copy is removed on every run whose body
completes — including all handled extraction and OCR failures — but not
when an exception escapes to the outer handler. -/
theorem temp_pdf_removed_when_body_completes (env : App.PdfEnv)
    (h : env.writeOk = true) :
    (App.extract_text_from_pdf env).2 = true := by
  simp [App.extract_text_from_pdf, h]

/-- C7 witness: a successful direct-extraction run removes the temp file. -/
theorem temp_pdf_removed_witness :
    (App.extract_text_from_pdf ⟨true, "texto", false, false, "", false, none⟩).2 = true :=
  temp_pdf_removed_when_body_completes ⟨true, "texto", false, false, "", false, none⟩ rfl

/-- C7 counterexample: when reading the upload stream fails during the
temp-file write, the function returns normally with empty text but the
temporary copy is not removed. -/
theorem temp_pdf_not_removed_counterexample :
    App.extract_text_from_pdf ⟨false, "", false, false, "", false, none⟩ = ("", false) := rfl

/-- C8: the upload route hands parse_tokio_text the saved file's path
string, so two uploads with the same saved path produce identical
responses and identical extracted workbooks, whatever their bytes. -/
theorem upload_response_depends_only_on_saved_path
    (fn1 fn2 : String) (b1 b2 : List Nat) (fs : List (String × List Nat))
    (h : (FileHandler.save_file fn1 b1 fs).1 = (FileHandler.save_file fn2 b2 fs).1) :
    (Upload.upload_file (some (fn1, b1)) fs).1 = (Upload.upload_file (some (fn2, b2)) fs).1 := by
  have h' : "uploads/" ++ fn1 = "uploads/" ++ fn2 := h
  have hfn : fn1 = fn2 := string_append_left_cancel h'
  subst hfn
  by_cases hb : fn1 = ""
  · simp [Upload.upload_file, hb]
  · simp [Upload.upload_file, FileHandler.save_file, hb]

/-- C8 witness: same filename, different bytes, identical responses. -/
theorem upload_response_path_witness :
    (Upload.upload_file (some ("apolice.pdf", [0])) []).1
      = (Upload.upload_file (some ("apolice.pdf", [1])) []).1 :=
  upload_response_depends_only_on_saved_path "apolice.pdf" "apolice.pdf" [0] [1] [] rfl

/-- C9: parse_tokio_text performs no vehicle segmentation: its vehicle
DataFrame always holds exactly one row, whatever the input text. -/
theorem parse_tokio_single_vehicle_row (text : String) :
    ((PdfConverter.parse_tokio_text text).2).rows.length = 1 := rfl

/-- C10: the vehicle field TIPO DE SEGURO is the hard-coded string
Renovação Tokio sem sinistro, never extracted from the input. -/
theorem tipo_de_seguro_is_constant (text : String) :
    (((PdfConverter.parse_tokio_text text).2).rows.headD []).lookup "TIPO DE SEGURO"
      = some "Renovação Tokio sem sinistro" := rfl
